import Mathlib

/-!
Verification of three appleseed renderer components against their
natural-language specification:

* the Oren-Nayar BRDF (`renderer/modeling/bsdf/orennayarbrdf.cpp`),
  embedded over the real numbers because it uses transcendental functions;
* the voxel-based ambient-occlusion surface shader
  (`renderer/modeling/surfaceshader/voxelaosurfaceshader.cpp`),
  embedded over the rationals (its decision logic is pure arithmetic);
* the pixel-variation AOV post-processor
  (`renderer/modeling/aov/pixelvariationaov.cpp`), embedded over the
  rationals.

Machine floats are modelled as exact reals / rationals; container loops are
modelled as folds over explicit index lists; the output parameters of the
C++ methods become explicit components of the returned values.
-/

namespace Appleseed

/-- Three-component vector of reals, modelling `foundation::Vector3f`. -/
structure Vec3 where
  vx : ℝ
  vy : ℝ
  vz : ℝ

/-- Dot product of two vectors, modelling `foundation::dot`. -/
def dot (a b : Vec3) : ℝ :=
  a.vx * b.vx + a.vy * b.vy + a.vz * b.vz

/-- Componentwise difference of two vectors. -/
def vsub (a b : Vec3) : Vec3 :=
  ⟨a.vx - b.vx, a.vy - b.vy, a.vz - b.vz⟩

/-- Scalar multiple of a vector. -/
def smul (c : ℝ) (v : Vec3) : Vec3 :=
  ⟨c * v.vx, c * v.vy, c * v.vz⟩

/-- Euclidean norm of a vector. -/
noncomputable def norm3 (v : Vec3) : ℝ :=
  Real.sqrt (dot v v)

/-- Normalization of a vector, modelling `foundation::normalize`. -/
noncomputable def normalize3 (v : Vec3) : Vec3 :=
  smul (norm3 v)⁻¹ v

/-- Projection of `v` onto the plane orthogonal to `n`.  Modelled from the
spec: the source comment says "Project outgoing and incoming vectors onto
the tangent plane" (`foundation/math/vector.h` is not under `src/`). -/
def project (v n : Vec3) : Vec3 :=
  vsub v (smul (dot v n) n)

/-- Local orthonormal shading frame, modelling `foundation::Basis3f`.
Modelled from the spec (`foundation/math/basis.h` is not under `src/`):
a normal plus two tangent vectors; in local coordinates the normal is the
`y` axis, as witnessed by the source using `wi.y` as the cosine of the
sampled direction. -/
structure Basis3 where
  bn : Vec3
  bu : Vec3
  bv : Vec3

/-- `Basis3f::get_normal`. -/
def Basis3.get_normal (b : Basis3) : Vec3 := b.bn

/-- `Basis3f::transform_to_parent`: local coordinates `(x, y, z)` map to
`x·u + y·n + z·v` (normal along local `y`). -/
def Basis3.transform_to_parent (b : Basis3) (w : Vec3) : Vec3 :=
  ⟨w.vx * b.bu.vx + w.vy * b.bn.vx + w.vz * b.bv.vx,
   w.vx * b.bu.vy + w.vy * b.bn.vy + w.vz * b.bv.vy,
   w.vx * b.bu.vz + w.vy * b.bn.vz + w.vz * b.bv.vz⟩

/-- A spectrum with `nn` wavelength buckets, modelling `renderer::Spectrum`. -/
def Spectrum (nn : ℕ) := Fin nn → ℝ

/-- `ScatteringMode::has_diffuse`: tests the `Diffuse = 1 << 0` bit of the
scattering-mode mask. -/
def has_diffuse (modes : ℕ) : Bool :=
  Nat.land modes 1 != 0

namespace OrenNayar

/-- `OrenNayarBRDFInputValues`: the input data block of the BRDF. -/
structure InputValues (nn : ℕ) where
  m_reflectance : Spectrum nn
  m_reflectance_multiplier : ℝ
  m_roughness : ℝ

/-- The two components of `renderer::DirectShadingComponents` that the
Oren-Nayar BRDF writes (`m_diffuse` and `m_beauty`). -/
structure DirectShadingComponents (nn : ℕ) where
  m_diffuse : Spectrum nn
  m_beauty : Spectrum nn

/-- `DirectShadingComponents::set(0.0f)`: all components zeroed. -/
def DirectShadingComponents.zero (nn : ℕ) : DirectShadingComponents nn :=
  ⟨fun _ => 0, fun _ => 0⟩

/-- `OrenNayarBRDFImpl::oren_nayar_qualitative`: the qualitative Oren-Nayar
model.  Direct translation of the source: angles via `acos` (with `theta_r`
clamped to at most `π/2`), azimuthal cosine difference via tangent-plane
projections, the three roughness coefficients, the direct term, the
interreflection term, and a final componentwise clamp at zero
(`clamp_low_in_place(value, 0.0f)`). -/
noncomputable def oren_nayar_qualitative {nn : ℕ}
    (cos_on cos_in roughness : ℝ)
    (reflectance : Spectrum nn)
    (reflectance_multiplier : ℝ)
    (outgoing incoming n : Vec3) : Spectrum nn :=
  let sigma2 := roughness ^ 2
  let theta_r := min (Real.arccos cos_on) (Real.pi / 2)
  let theta_i := Real.arccos cos_in
  let alpha := max theta_r theta_i
  let beta := min theta_r theta_i
  let V_perp_N := normalize3 (project outgoing n)
  let I_perp_N := normalize3 (vsub incoming (smul cos_in n))
  let delta_cos_phi := dot V_perp_N I_perp_N
  let coef1 := 1 - 0.5 * (sigma2 / (sigma2 + 0.33))
  let sigma2_009 := sigma2 / (sigma2 + 0.09)
  let coef2 := 0.45 * sigma2_009 *
    (if delta_cos_phi ≥ 0 then Real.sin alpha
     else Real.sin alpha - (2 * beta * (Real.pi)⁻¹) ^ 3)
  let coef3 := 0.125 * sigma2_009 * (4 * alpha * beta * (Real.pi ^ 2)⁻¹) ^ 2
  fun i =>
    max 0
      (reflectance i *
        (reflectance_multiplier * (Real.pi)⁻¹ *
          (coef1 + delta_cos_phi * coef2 * Real.tan beta +
            (1 - |delta_cos_phi|) * coef3 * Real.tan (0.5 * (alpha + beta)))) +
       (reflectance i * reflectance i) *
        (0.17 * reflectance_multiplier ^ 2 * (Real.pi)⁻¹ * cos_in *
          (sigma2 / (sigma2 + 0.13)) *
          (1 - delta_cos_phi * (2 * beta * (Real.pi)⁻¹) ^ 2)))

/-- `OrenNayarBRDFImpl::evaluate`.  The C++ method writes the BRDF value
into an output parameter `value` and returns the probability density; here
the initial contents of the output parameter are an explicit argument
`value0` and the result is the pair (density, final contents of `value`).
Early returns leave `value0` untouched, exactly as the source does. -/
noncomputable def evaluate {nn : ℕ}
    (values : InputValues nn)
    (shading_basis : Basis3)
    (outgoing incoming : Vec3)
    (modes : ℕ)
    (value0 : DirectShadingComponents nn) :
    ℝ × DirectShadingComponents nn :=
  if has_diffuse modes = false then (0, value0)
  else if dot incoming shading_basis.get_normal < 0 then (0, value0)
  else if values.m_roughness ≠ 0 then
    if dot outgoing shading_basis.get_normal < 0 then
      (0, DirectShadingComponents.zero nn)
    else
      (dot incoming shading_basis.get_normal * (Real.pi)⁻¹,
       { m_diffuse :=
           oren_nayar_qualitative
             (dot outgoing shading_basis.get_normal)
             (dot incoming shading_basis.get_normal)
             values.m_roughness
             values.m_reflectance
             values.m_reflectance_multiplier
             outgoing incoming shading_basis.get_normal,
         m_beauty :=
           oren_nayar_qualitative
             (dot outgoing shading_basis.get_normal)
             (dot incoming shading_basis.get_normal)
             values.m_roughness
             values.m_reflectance
             values.m_reflectance_multiplier
             outgoing incoming shading_basis.get_normal })
  else
    (dot incoming shading_basis.get_normal * (Real.pi)⁻¹,
     { m_diffuse := fun i =>
         values.m_reflectance i *
           (values.m_reflectance_multiplier * (Real.pi)⁻¹),
       m_beauty := fun i =>
         values.m_reflectance i *
           (values.m_reflectance_multiplier * (Real.pi)⁻¹) })

/-- `OrenNayarBRDFImpl::evaluate_pdf`: same rejection logic as `evaluate`,
returning only the density. -/
noncomputable def evaluate_pdf {nn : ℕ}
    (values : InputValues nn)
    (shading_basis : Basis3)
    (outgoing incoming : Vec3)
    (modes : ℕ) : ℝ :=
  if has_diffuse modes = false then 0
  else if dot incoming shading_basis.get_normal < 0 then 0
  else if values.m_roughness ≠ 0 then
    if dot outgoing shading_basis.get_normal < 0 then 0
    else dot incoming shading_basis.get_normal * (Real.pi)⁻¹
  else dot incoming shading_basis.get_normal * (Real.pi)⁻¹

/-- `foundation::sample_hemisphere_cosine`.  Modelled from the spec
(`foundation/math/sampling/mappings.h` is not under `src/`): the standard
cosine-weighted hemisphere mapping with the normal along local `y`,
`φ = 2π·ξ₁`, `cos θ = √(1 − ξ₂)`, `sin θ = √ξ₂`. -/
noncomputable def sample_hemisphere_cosine (s1 s2 : ℝ) : Vec3 :=
  ⟨Real.cos (2 * Real.pi * s1) * Real.sqrt s2,
   Real.sqrt (1 - s2),
   Real.sin (2 * Real.pi * s1) * Real.sqrt s2⟩

/-- The sample record produced by `OrenNayarBRDFImpl::sample`: incoming
direction, diffuse and beauty values, and probability density.  The source
leaves the record untouched (scattering mode `None`) on every early return;
this is modelled by returning `none`. -/
structure BSDFSample (nn : ℕ) where
  m_incoming : Vec3
  m_diffuse : Spectrum nn
  m_beauty : Spectrum nn
  m_probability : ℝ

/-- `OrenNayarBRDFImpl::sample`: draws the local direction from the two
uniform random inputs, transforms it to parent space, rejects below-surface
configurations when roughness is non-zero, computes the value from the same
physical model as `evaluate`, and returns the density `wi.y / π`. -/
noncomputable def sample {nn : ℕ}
    (values : InputValues nn)
    (shading_basis : Basis3)
    (outgoing : Vec3)
    (modes : ℕ)
    (s1 s2 : ℝ) : Option (BSDFSample nn) :=
  if has_diffuse modes = false then none
  else
    if values.m_roughness ≠ 0 then
      if dot outgoing shading_basis.get_normal < 0 then none
      else if dot (shading_basis.transform_to_parent
                    (sample_hemisphere_cosine s1 s2))
                  shading_basis.get_normal < 0 then none
      else
        some
          { m_incoming :=
              shading_basis.transform_to_parent
                (sample_hemisphere_cosine s1 s2),
            m_diffuse :=
              oren_nayar_qualitative
                (dot outgoing shading_basis.get_normal)
                (dot (shading_basis.transform_to_parent
                        (sample_hemisphere_cosine s1 s2))
                     shading_basis.get_normal)
                values.m_roughness
                values.m_reflectance
                values.m_reflectance_multiplier
                outgoing
                (shading_basis.transform_to_parent
                  (sample_hemisphere_cosine s1 s2))
                shading_basis.get_normal,
            m_beauty :=
              oren_nayar_qualitative
                (dot outgoing shading_basis.get_normal)
                (dot (shading_basis.transform_to_parent
                        (sample_hemisphere_cosine s1 s2))
                     shading_basis.get_normal)
                values.m_roughness
                values.m_reflectance
                values.m_reflectance_multiplier
                outgoing
                (shading_basis.transform_to_parent
                  (sample_hemisphere_cosine s1 s2))
                shading_basis.get_normal,
            m_probability :=
              (sample_hemisphere_cosine s1 s2).vy * (Real.pi)⁻¹ }
    else
      some
        { m_incoming :=
            shading_basis.transform_to_parent
              (sample_hemisphere_cosine s1 s2),
          m_diffuse := fun i =>
            values.m_reflectance i *
              (values.m_reflectance_multiplier * (Real.pi)⁻¹),
          m_beauty := fun i =>
            values.m_reflectance i *
              (values.m_reflectance_multiplier * (Real.pi)⁻¹),
          m_probability :=
            (sample_hemisphere_cosine s1 s2).vy * (Real.pi)⁻¹ }

end OrenNayar

namespace VoxelAO

/-- `renderer::AOVoxelTree`.  Modelled from the spec: the voxel tree built
from the scene is an external collaborator (its source is not under
`src/`); the only attribute the shader reads is its maximum voxel diagonal
length (`get_max_diag_length`). -/
structure AOVoxelTree where
  max_diag_length : ℚ
deriving DecidableEq

/-- The part of the scene the shader observes in `on_frame_begin`: the two
monotonic version counters (`Scene::get_geometry_version_id` and
`Scene::get_assembly_instances_version_id`). -/
structure SceneState where
  geometry_version_id : ℕ
  asm_inst_version_id : ℕ

/-- The mutable state of `VoxelAOSurfaceShader` that `on_frame_begin`
reads and writes: configuration extracted at construction, the last-seen
version counters, the owned voxel tree and intersector (the intersector is
a query object bound to a tree snapshot, modelled by the snapshot it is
bound to), and the derived world-space thresholds. -/
structure ShaderState where
  m_samples : ℕ
  m_low_threshold : ℚ
  m_high_threshold : ℚ
  m_max_voxel_extent : ℚ
  m_last_geometry_version_id : ℕ
  m_last_asm_inst_version_id : ℕ
  m_voxel_tree : Option AOVoxelTree
  m_voxel_tree_intersector : Option AOVoxelTree
  m_diag_length : ℚ
  m_classic_threshold : ℚ
  m_fast_threshold : ℚ
  m_half_samples : ℕ
deriving DecidableEq

/-- `VoxelAOSurfaceShader::on_frame_begin`.  The voxel-tree constructor
`AOVoxelTree(scene, max_voxel_extent)` is an external collaborator and is
passed in as the function `build`.  If both version counters match the
last-seen values the state is returned unchanged; otherwise the tree and
its intersector are rebuilt, the counters are cached and the derived
thresholds are recomputed, exactly following the source. -/
def on_frame_begin
    (build : SceneState → ℚ → AOVoxelTree)
    (scene : SceneState)
    (st : ShaderState) : ShaderState :=
  if scene.geometry_version_id ≠ st.m_last_geometry_version_id ∨
     scene.asm_inst_version_id ≠ st.m_last_asm_inst_version_id then
    let tree := build scene st.m_max_voxel_extent
    let diag := tree.max_diag_length * (1 + 1 / 100000)
    { st with
      m_last_geometry_version_id := scene.geometry_version_id,
      m_last_asm_inst_version_id := scene.asm_inst_version_id,
      m_voxel_tree := some tree,
      m_diag_length := diag,
      m_classic_threshold := st.m_low_threshold * diag,
      m_fast_threshold := st.m_high_threshold * diag,
      m_half_samples :=
        if st.m_samples / 2 < 1 then 1 else st.m_samples / 2,
      m_voxel_tree_intersector := some tree }
  else st

/-- `foundation::linearstep(a, b, x)`.  Modelled from the spec
(`foundation/math/scalar.h` is not under `src/`): the linear remap of `x`
from `[a, b]` to `[0, 1]`, clamped, so it is `0` at `a` and `1` at `b`. -/
def linearstep (a b x : ℚ) : ℚ :=
  min (max ((x - a) / (b - a)) 0) 1

/-- The occlusion strategy chosen by `VoxelAOSurfaceShader::evaluate`:
fast voxel-based occlusion, classic ray-traced occlusion, or a blend of
both with the given blend factor. -/
inductive AOStrategy where
  | fast : AOStrategy
  | classic : AOStrategy
  | blend : ℚ → AOStrategy
deriving DecidableEq

/-- The strategy-selection logic of `VoxelAOSurfaceShader::evaluate`:
direct translation of its `if (clearance >= m_fast_threshold) … else if
(clearance < m_classic_threshold) … else …` chain, with the blend factor
`k = linearstep(m_classic_threshold, m_fast_threshold, clearance)`. -/
def select_strategy (classic_threshold fast_threshold clearance : ℚ) :
    AOStrategy :=
  if clearance ≥ fast_threshold then AOStrategy.fast
  else if clearance < classic_threshold then AOStrategy.classic
  else AOStrategy.blend (linearstep classic_threshold fast_threshold clearance)

/-- The occlusion value computed by `VoxelAOSurfaceShader::evaluate` for a
given clearance, with the two external occlusion estimators (fast and
classic ambient occlusion, each taking a sample count) passed in as
oracles: fast mode uses the fast estimator at the full sample count,
classic mode the classic estimator at the full sample count, and blend
mode interpolates both at `m_half_samples` each. -/
def occlusion_of
    (st : ShaderState)
    (fast_occ classic_occ : ℕ → ℚ)
    (clearance : ℚ) : ℚ :=
  if clearance ≥ st.m_fast_threshold then fast_occ st.m_samples
  else if clearance < st.m_classic_threshold then classic_occ st.m_samples
  else
    linearstep st.m_classic_threshold st.m_fast_threshold clearance *
      fast_occ st.m_half_samples +
    (1 - linearstep st.m_classic_threshold st.m_fast_threshold clearance) *
      classic_occ st.m_half_samples

/-- The parameter values of `VoxelAOSurfaceShader` after the dictionary
lookups in `extract_parameters` (each lookup supplies a default, so every
field has a value). -/
structure AOParams where
  samples : ℕ
  max_distance : ℚ
  max_voxel_extent : ℚ
  low_threshold : ℚ
  high_threshold : ℚ
  enable_diagnostics : Bool
deriving DecidableEq

/-- The validation step of `VoxelAOSurfaceShader::extract_parameters`:
if `low_threshold < 0`, or `high_threshold < 0`, or
`high_threshold < low_threshold`, both thresholds are replaced by the
documented defaults `2.0` and `4.0` (after logging an error); construction
itself always succeeds — this function is total. -/
def extract_parameters (p : AOParams) : AOParams :=
  if p.low_threshold < 0 ∨ p.high_threshold < 0 ∨
     p.high_threshold < p.low_threshold then
    { p with low_threshold := 2, high_threshold := 4 }
  else p

end VoxelAO

namespace PixelVariation

/-- A three-channel color with rational channels, modelling
`foundation::Color3f`. -/
structure Color3 where
  cr : ℚ
  cg : ℚ
  cb : ℚ
deriving DecidableEq

/-- The fixed `Blue` color of `PixelVariationAOV::post_process_image`. -/
def Blue : Color3 := ⟨0, 0, 1⟩

/-- The fixed `Red` color of `PixelVariationAOV::post_process_image`. -/
def Red : Color3 := ⟨1, 0, 0⟩

/-- An image addressable by integer pixel coordinates. -/
def Image := ℕ → ℕ → Color3

/-- The crop window `foundation::AABB2u`: inclusive lower and upper pixel
coordinates. -/
structure AABB2u where
  min_x : ℕ
  min_y : ℕ
  max_x : ℕ
  max_y : ℕ
deriving DecidableEq

/-- Membership of a pixel in the crop window (both bounds inclusive, as in
the source loops `for (y = min.y; y <= max.y; ++y)`). -/
def in_crop (cw : AABB2u) (x y : ℕ) : Bool :=
  decide (cw.min_x ≤ x) && decide (x ≤ cw.max_x) &&
  decide (cw.min_y ≤ y) && decide (y ≤ cw.max_y)

/-- The list of pixel coordinates visited by the source's nested loops:
`y` from `min.y` to `max.y` and, inside, `x` from `min.x` to `max.x`. -/
def crop_pixels (cw : AABB2u) : List (ℕ × ℕ) :=
  (List.range' cw.min_y (cw.max_y + 1 - cw.min_y)).flatMap fun y =>
    (List.range' cw.min_x (cw.max_x + 1 - cw.min_x)).map fun x => (x, y)

/-- The first pass of `PixelVariationAOV::post_process_image`: the running
maximum of the first channel over the crop window, starting from `0.0f`
(`max_variation = max(color[0], max_variation)`). -/
def max_variation (img : Image) (cw : AABB2u) : ℚ :=
  (crop_pixels cw).foldl (fun acc p => max (img p.1 p.2).cr acc) 0

/-- `foundation::fit(x, 0, max, 0, 1)`.  Modelled from the spec
(`foundation/math/scalar.h` is not under `src/`): the linear remap of `x`
from `[0, maxv]` to `[0, 1]`, i.e. `x / maxv`. -/
def fit01 (x maxv : ℚ) : ℚ := x / maxv

/-- `foundation::lerp(a, b, t)` on colors.  Modelled from the spec: the
componentwise linear interpolation `a + t·(b − a)`. -/
def lerp (a b : Color3) (t : ℚ) : Color3 :=
  ⟨a.cr + t * (b.cr - a.cr),
   a.cg + t * (b.cg - a.cg),
   a.cb + t * (b.cb - a.cb)⟩

/-- `PixelVariationAOV::post_process_image`: first pass finds the running
maximum of the first channel over the crop window; if it is non-zero every
crop-window pixel is rewritten to `lerp(Blue, Red, fit(value, 0, max, 0,
1))`, otherwise every crop-window pixel is set to `Blue`.  Pixels outside
the crop window are untouched. -/
def post_process_image (img : Image) (cw : AABB2u) : Image :=
  if max_variation img cw ≠ 0 then
    fun x y =>
      if in_crop cw x y then
        lerp Blue Red (fit01 (img x y).cr (max_variation img cw))
      else img x y
  else
    fun x y => if in_crop cw x y then Blue else img x y

end PixelVariation

/-! Concrete inputs used to instantiate the theorems below. -/

/-- The canonical shading basis: normal along world `y`. -/
def basisY : Basis3 := ⟨⟨0, 1, 0⟩, ⟨1, 0, 0⟩, ⟨0, 0, 1⟩⟩

/-- A direction along the shading normal (above the surface). -/
def onUp : Vec3 := ⟨0, 1, 0⟩

/-- A direction opposite the shading normal (below the surface). -/
def onDown : Vec3 := ⟨0, -1, 0⟩

/-- Input block with roughness `0` (Lambertian branch), unit reflectance
and unit multiplier. -/
def vLambert : OrenNayar.InputValues 1 := ⟨fun _ => 1, 1, 0⟩

/-- Input block with roughness `0`, reflectance `1/2` and multiplier `3`. -/
noncomputable def vC2 : OrenNayar.InputValues 1 := ⟨fun _ => 1 / 2, 3, 0⟩

/-- Input block with non-zero roughness `1`. -/
noncomputable def vRough : OrenNayar.InputValues 1 := ⟨fun _ => 1 / 2, 1, 1⟩

/-- Input block with roughness `0` and a negative reflectance multiplier. -/
noncomputable def vNegMult : OrenNayar.InputValues 1 := ⟨fun _ => 1, -1, 0⟩

/-- The sample record produced by `sample` on the Lambertian input block
with random inputs `(0, 0)`. -/
noncomputable def recC : OrenNayar.BSDFSample 1 :=
  { m_incoming :=
      basisY.transform_to_parent (OrenNayar.sample_hemisphere_cosine 0 0),
    m_diffuse := fun i =>
      vLambert.m_reflectance i *
        (vLambert.m_reflectance_multiplier * (Real.pi)⁻¹),
    m_beauty := fun i =>
      vLambert.m_reflectance i *
        (vLambert.m_reflectance_multiplier * (Real.pi)⁻¹),
    m_probability :=
      (OrenNayar.sample_hemisphere_cosine 0 0).vy * (Real.pi)⁻¹ }

/-- A voxel-tree constructor oracle: the built tree's maximum diagonal
length equals the maximum voxel extent passed in. -/
def build0 : VoxelAO.SceneState → ℚ → VoxelAO.AOVoxelTree :=
  fun _ e => ⟨e⟩

/-- A scene snapshot with version counters `3` and `7`. -/
def scene0 : VoxelAO.SceneState := ⟨3, 7⟩

/-- A shader state whose cached geometry version counter (`0`) differs
from `scene0`'s (`3`). -/
def st0 : VoxelAO.ShaderState :=
  ⟨16, 2, 4, 1 / 100, 0, 7, none, none, 0, 0, 0, 0⟩

/-- Shader parameters with `high_threshold < low_threshold` (invalid). -/
def pBad : VoxelAO.AOParams := ⟨16, 1, 1 / 100, 5, 3, false⟩

/-- A 3×1 test image holding first-channel values `0`, `1/2` and `1` at
`(0,0)`, `(1,0)` and `(2,0)`, and a sentinel color elsewhere. -/
def img0 : PixelVariation.Image := fun x y =>
  if x = 0 ∧ y = 0 then ⟨0, 9, 9⟩
  else if x = 1 ∧ y = 0 then ⟨1 / 2, 0, 0⟩
  else if x = 2 ∧ y = 0 then ⟨1, 2, 3⟩
  else ⟨7, 7, 7⟩

/-- The crop window covering exactly the pixels `(0,0)`, `(1,0)`, `(2,0)`. -/
def cw0 : PixelVariation.AABB2u := ⟨0, 0, 2, 0⟩

/-! Helper lemmas about the running-maximum fold and the crop-window
pixel list. -/

/-- The running maximum never drops below its initial value. -/
theorem foldl_max_init_le (f : ℕ × ℕ → ℚ) :
    ∀ (l : List (ℕ × ℕ)) (a : ℚ),
      a ≤ l.foldl (fun acc p => max (f p) acc) a := by
  intro l
  induction l with
  | nil => intro a; exact le_refl a
  | cons q l ih =>
      intro a
      exact le_trans (le_max_right (f q) a) (ih (max (f q) a))

/-- The running maximum dominates every element of the list. -/
theorem foldl_max_mem_le (f : ℕ × ℕ → ℚ) :
    ∀ (l : List (ℕ × ℕ)) (a : ℚ) (p : ℕ × ℕ), p ∈ l →
      f p ≤ l.foldl (fun acc q => max (f q) acc) a := by
  intro l
  induction l with
  | nil => intro a p hp; cases hp
  | cons q l ih =>
      intro a p hp
      rcases List.mem_cons.mp hp with h | h
      · subst h
        exact le_trans (le_max_left (f p) a)
          (foldl_max_init_le f l (max (f p) a))
      · exact ih (max (f q) a) p h

/-- The running maximum is either the initial value or attained by some
element of the list. -/
theorem foldl_max_eq_init_or_mem (f : ℕ × ℕ → ℚ) :
    ∀ (l : List (ℕ × ℕ)) (a : ℚ),
      l.foldl (fun acc q => max (f q) acc) a = a ∨
      ∃ p ∈ l, f p = l.foldl (fun acc q => max (f q) acc) a := by
  intro l
  induction l with
  | nil => intro a; exact Or.inl rfl
  | cons q l ih =>
      intro a
      rcases ih (max (f q) a) with h | ⟨p, hp, hfp⟩
      · rcases max_choice (f q) a with hq | hq
        · refine Or.inr ⟨q, List.mem_cons_self q l, ?_⟩
          simpa [List.foldl_cons, h] using hq.symm
        · refine Or.inl ?_
          simpa [List.foldl_cons, h] using hq
      · exact Or.inr ⟨p, List.mem_cons_of_mem q hp, by simpa [List.foldl_cons] using hfp⟩

/-- A pixel is visited by the source's nested loops exactly when it lies
in the crop window (both bounds inclusive). -/
theorem mem_crop_pixels_iff (cw : PixelVariation.AABB2u) (x y : ℕ) :
    (x, y) ∈ PixelVariation.crop_pixels cw ↔
      PixelVariation.in_crop cw x y = true := by
  unfold PixelVariation.crop_pixels PixelVariation.in_crop
  simp only [List.mem_flatMap, List.mem_map, List.mem_range'_1,
    Bool.and_eq_true, decide_eq_true_eq, Prod.mk.injEq]
  constructor
  · rintro ⟨y', ⟨hy1, hy2⟩, x', ⟨hx1, hx2⟩, hxx, hyy⟩
    subst hxx; subst hyy
    omega
  · rintro ⟨⟨⟨h1, h2⟩, h3⟩, h4⟩
    exact ⟨y, by omega, x, by omega, rfl, rfl⟩

/-- Two images agreeing on the crop window have the same running maximum
over it. -/
theorem max_variation_congr (img img' : PixelVariation.Image)
    (cw : PixelVariation.AABB2u)
    (h : ∀ x y, PixelVariation.in_crop cw x y = true → img x y = img' x y) :
    PixelVariation.max_variation img cw =
      PixelVariation.max_variation img' cw := by
  unfold PixelVariation.max_variation
  refine List.foldl_ext _ _ 0 ?_
  intro a p hp
  have hin : PixelVariation.in_crop cw p.1 p.2 = true :=
    (mem_crop_pixels_iff cw p.1 p.2).mp (by simpa using hp)
  rw [h p.1 p.2 hin]

/-! Claim theorems. -/

/-- C1: counterexample.  With roughness `0`, diffuse scattering requested
(`modes = 1`), the incoming direction above the surface but the outgoing
direction strictly below it (`dot(outgoing, n) = -1 < 0`), `evaluate`
returns the non-zero probability density `1/π` (and a non-zero Lambertian
contribution), contradicting the claim that the returned density is zero
whenever either direction lies below the surface, for every roughness
value including zero: the source only checks the outgoing direction when
roughness is non-zero. -/
theorem C1_counterexample :
    dot onDown basisY.get_normal < 0 ∧
    has_diffuse 1 = true ∧
    (OrenNayar.evaluate vLambert basisY onDown onUp 1
        (OrenNayar.DirectShadingComponents.zero 1)).1 ≠ 0 ∧
    ((OrenNayar.evaluate vLambert basisY onDown onUp 1
        (OrenNayar.DirectShadingComponents.zero 1)).2).m_diffuse 0 ≠ 0 := by
  have hpdf :
      OrenNayar.evaluate vLambert basisY onDown onUp 1
        (OrenNayar.DirectShadingComponents.zero 1)
        = (1 * (Real.pi)⁻¹,
           { m_diffuse := fun i =>
               vLambert.m_reflectance i *
                 (vLambert.m_reflectance_multiplier * (Real.pi)⁻¹),
             m_beauty := fun i =>
               vLambert.m_reflectance i *
                 (vLambert.m_reflectance_multiplier * (Real.pi)⁻¹) }) := by
    have hd : dot onUp basisY.get_normal = 1 := by
      norm_num [dot, onUp, basisY, Basis3.get_normal]
    unfold OrenNayar.evaluate
    rw [if_neg (by decide), if_neg (by rw [hd]; norm_num),
      if_neg (by norm_num [vLambert]), hd]
  refine ⟨by norm_num [onDown, basisY, dot, Basis3.get_normal], by decide,
    ?_, ?_⟩
  · rw [hpdf]
    simpa using inv_ne_zero Real.pi_ne_zero
  · rw [hpdf]
    simpa [vLambert] using inv_ne_zero Real.pi_ne_zero

/-- C1 (amended): if diffuse scattering is not requested, or the incoming
direction lies below the surface, `evaluate` returns density `0` and
leaves the contribution output at its prior contents; if roughness is
non-zero, diffuse is requested, the incoming direction is above the
surface and the outgoing direction lies below it, `evaluate` returns
density `0` and a zeroed contribution.  When roughness is zero the
outgoing direction is not checked. -/
theorem C1_theorem {nn : ℕ} (values : OrenNayar.InputValues nn)
    (basis : Basis3) (outgoing incoming : Vec3) (modes : ℕ)
    (value0 : OrenNayar.DirectShadingComponents nn) :
    ((has_diffuse modes = false ∨ dot incoming basis.get_normal < 0) →
       OrenNayar.evaluate values basis outgoing incoming modes value0
         = (0, value0)) ∧
    (has_diffuse modes = true → 0 ≤ dot incoming basis.get_normal →
     values.m_roughness ≠ 0 → dot outgoing basis.get_normal < 0 →
       OrenNayar.evaluate values basis outgoing incoming modes value0
         = (0, OrenNayar.DirectShadingComponents.zero nn)) := by
  constructor
  · rintro (h | h)
    · unfold OrenNayar.evaluate
      rw [if_pos h]
    · unfold OrenNayar.evaluate
      by_cases hm : has_diffuse modes = false
      · rw [if_pos hm]
      · rw [if_neg hm, if_pos h]
  · intro hm hin hr hout
    unfold OrenNayar.evaluate
    rw [if_neg (by simp [hm]), if_neg (not_lt.mpr hin), if_pos hr,
      if_pos hout]

/-- C1 witness: the rejection branch of the amended claim at a concrete
input with non-zero roughness and outgoing direction below the surface. -/
theorem C1_witness :
    has_diffuse 1 = true ∧
    (0 : ℝ) ≤ dot onUp basisY.get_normal ∧
    vRough.m_roughness ≠ 0 ∧
    dot onDown basisY.get_normal < 0 ∧
    OrenNayar.evaluate vRough basisY onDown onUp 1
        (OrenNayar.DirectShadingComponents.zero 1)
      = (0, OrenNayar.DirectShadingComponents.zero 1) :=
  ⟨by decide,
   by norm_num [onUp, basisY, dot, Basis3.get_normal],
   by norm_num [vRough],
   by norm_num [onDown, basisY, dot, Basis3.get_normal],
   (C1_theorem vRough basisY onDown onUp 1
       (OrenNayar.DirectShadingComponents.zero 1)).2
     (by decide)
     (by norm_num [onUp, basisY, dot, Basis3.get_normal])
     (by norm_num [vRough])
     (by norm_num [onDown, basisY, dot, Basis3.get_normal])⟩

/-- C2: for any direction pair with non-negative cosines against the
shading normal, diffuse mode requested and roughness `0`, the value
returned by `evaluate` equals `reflectance × reflectance_multiplier / π`
exactly, componentwise, in both the diffuse and beauty channels. -/
theorem C2_theorem {nn : ℕ} (values : OrenNayar.InputValues nn)
    (basis : Basis3) (outgoing incoming : Vec3) (modes : ℕ)
    (value0 : OrenNayar.DirectShadingComponents nn)
    (hm : has_diffuse modes = true)
    (hr : values.m_roughness = 0)
    (hin : 0 ≤ dot incoming basis.get_normal)
    (hout : 0 ≤ dot outgoing basis.get_normal) :
    ∀ i,
      ((OrenNayar.evaluate values basis outgoing incoming modes
          value0).2).m_diffuse i
        = values.m_reflectance i * values.m_reflectance_multiplier /
            Real.pi ∧
      ((OrenNayar.evaluate values basis outgoing incoming modes
          value0).2).m_beauty i
        = values.m_reflectance i * values.m_reflectance_multiplier /
            Real.pi := by
  intro i
  have hev :
      OrenNayar.evaluate values basis outgoing incoming modes value0
        = (dot incoming basis.get_normal * (Real.pi)⁻¹,
           { m_diffuse := fun j =>
               values.m_reflectance j *
                 (values.m_reflectance_multiplier * (Real.pi)⁻¹),
             m_beauty := fun j =>
               values.m_reflectance j *
                 (values.m_reflectance_multiplier * (Real.pi)⁻¹) }) := by
    unfold OrenNayar.evaluate
    rw [if_neg (by simp [hm]), if_neg (not_lt.mpr hin),
      if_neg (by simp [hr])]
  rw [hev]
  constructor
  · show values.m_reflectance i *
        (values.m_reflectance_multiplier * (Real.pi)⁻¹) = _
    rw [div_eq_mul_inv, mul_assoc]
  · show values.m_reflectance i *
        (values.m_reflectance_multiplier * (Real.pi)⁻¹) = _
    rw [div_eq_mul_inv, mul_assoc]

/-- C2 witness: the Lambertian degeneration at a concrete input with
reflectance `1/2` and multiplier `3`. -/
theorem C2_witness :
    has_diffuse 1 = true ∧
    vC2.m_roughness = 0 ∧
    (0 : ℝ) ≤ dot onUp basisY.get_normal ∧
    ((OrenNayar.evaluate vC2 basisY onUp onUp 1
        (OrenNayar.DirectShadingComponents.zero 1)).2).m_diffuse 0
      = vC2.m_reflectance 0 * vC2.m_reflectance_multiplier / Real.pi :=
  ⟨by decide,
   by norm_num [vC2],
   by norm_num [onUp, basisY, dot, Basis3.get_normal],
   (C2_theorem vC2 basisY onUp onUp 1
       (OrenNayar.DirectShadingComponents.zero 1)
       (by decide)
       (by norm_num [vC2])
       (by norm_num [onUp, basisY, dot, Basis3.get_normal])
       (by norm_num [onUp, basisY, dot, Basis3.get_normal]) 0).1⟩

/-- C3: `evaluate_pdf` returns exactly the probability density returned by
`evaluate` on the same input block, shading basis, outgoing and incoming
directions and mode mask, for every initial contribution state. -/
theorem C3_theorem {nn : ℕ} (values : OrenNayar.InputValues nn)
    (basis : Basis3) (outgoing incoming : Vec3) (modes : ℕ)
    (value0 : OrenNayar.DirectShadingComponents nn) :
    OrenNayar.evaluate_pdf values basis outgoing incoming modes
      = (OrenNayar.evaluate values basis outgoing incoming modes
          value0).1 := by
  unfold OrenNayar.evaluate OrenNayar.evaluate_pdf
  split_ifs <;> rfl

/-- The qualitative Oren-Nayar term is componentwise non-negative thanks
to its final clamp. -/
theorem oren_nayar_qualitative_nonneg {nn : ℕ}
    (cos_on cos_in roughness : ℝ) (reflectance : Spectrum nn)
    (reflectance_multiplier : ℝ) (outgoing incoming n : Vec3) (i : Fin nn) :
    0 ≤ OrenNayar.oren_nayar_qualitative cos_on cos_in roughness
          reflectance reflectance_multiplier outgoing incoming n i := by
  unfold OrenNayar.oren_nayar_qualitative
  exact le_max_left _ _

/-- C8: counterexample.  With roughness `0`, unit reflectance and
reflectance multiplier `-1`, diffuse mode requested and both directions
along the normal, `evaluate` produces a result with non-zero density whose
diffuse component is `-1/π < 0`: the Lambertian branch of the source has
no clamp, so the returned spectral value is not componentwise non-negative
for every reflectance multiplier. -/
theorem C8_counterexample :
    (OrenNayar.evaluate vNegMult basisY onUp onUp 1
        (OrenNayar.DirectShadingComponents.zero 1)).1 ≠ 0 ∧
    ((OrenNayar.evaluate vNegMult basisY onUp onUp 1
        (OrenNayar.DirectShadingComponents.zero 1)).2).m_diffuse 0 < 0 := by
  have hd : dot onUp basisY.get_normal = 1 := by
    norm_num [dot, onUp, basisY, Basis3.get_normal]
  have hev :
      OrenNayar.evaluate vNegMult basisY onUp onUp 1
        (OrenNayar.DirectShadingComponents.zero 1)
        = (1 * (Real.pi)⁻¹,
           { m_diffuse := fun i =>
               vNegMult.m_reflectance i *
                 (vNegMult.m_reflectance_multiplier * (Real.pi)⁻¹),
             m_beauty := fun i =>
               vNegMult.m_reflectance i *
                 (vNegMult.m_reflectance_multiplier * (Real.pi)⁻¹) }) := by
    unfold OrenNayar.evaluate
    rw [if_neg (by decide), if_neg (by rw [hd]; norm_num),
      if_neg (by norm_num [vNegMult]), hd]
  constructor
  · rw [hev]
    simpa using inv_ne_zero Real.pi_ne_zero
  · rw [hev]
    show vNegMult.m_reflectance 0 *
        (vNegMult.m_reflectance_multiplier * (Real.pi)⁻¹) < 0
    have hpi : (0 : ℝ) < (Real.pi)⁻¹ := inv_pos.mpr Real.pi_pos
    have hv : vNegMult.m_reflectance 0 *
        (vNegMult.m_reflectance_multiplier * (Real.pi)⁻¹)
        = -(Real.pi)⁻¹ := by
      norm_num [vNegMult]
    rw [hv]
    linarith

/-- C8 (amended): with diffuse scattering requested and the incoming
direction above the surface, the spectral value returned by `evaluate`,
and by `sample` whenever it produces a sample record, is componentwise
non-negative: unconditionally when roughness is non-zero (the qualitative
term ends in a clamp at zero), and provided the reflectance components and
the reflectance multiplier are non-negative when roughness is zero (the
Lambertian branch has no clamp). -/
theorem C8_theorem {nn : ℕ} (values : OrenNayar.InputValues nn)
    (basis : Basis3) (outgoing incoming : Vec3) (modes : ℕ)
    (value0 : OrenNayar.DirectShadingComponents nn) (s1 s2 : ℝ)
    (hm : has_diffuse modes = true)
    (hin : 0 ≤ dot incoming basis.get_normal) :
    (values.m_roughness ≠ 0 →
       ∀ i, 0 ≤ ((OrenNayar.evaluate values basis outgoing incoming modes
                   value0).2).m_diffuse i) ∧
    (values.m_roughness = 0 → 0 ≤ values.m_reflectance_multiplier →
       (∀ i, 0 ≤ values.m_reflectance i) →
       ∀ i, 0 ≤ ((OrenNayar.evaluate values basis outgoing incoming modes
                   value0).2).m_diffuse i) ∧
    (∀ rec, OrenNayar.sample values basis outgoing modes s1 s2 = some rec →
       (values.m_roughness ≠ 0 → ∀ i, 0 ≤ rec.m_diffuse i) ∧
       (values.m_roughness = 0 → 0 ≤ values.m_reflectance_multiplier →
          (∀ i, 0 ≤ values.m_reflectance i) →
          ∀ i, 0 ≤ rec.m_diffuse i)) := by
  have hpi : (0 : ℝ) ≤ (Real.pi)⁻¹ := (inv_pos.mpr Real.pi_pos).le
  refine ⟨?_, ?_, ?_⟩
  · intro hr i
    unfold OrenNayar.evaluate
    rw [if_neg (by simp [hm]), if_neg (not_lt.mpr hin), if_pos hr]
    by_cases hout : dot outgoing basis.get_normal < 0
    · rw [if_pos hout]
      exact le_refl 0
    · rw [if_neg hout]
      exact oren_nayar_qualitative_nonneg _ _ _ _ _ _ _ _ i
  · intro hr hmul hrefl i
    unfold OrenNayar.evaluate
    rw [if_neg (by simp [hm]), if_neg (not_lt.mpr hin),
      if_neg (by simp [hr])]
    exact mul_nonneg (hrefl i) (mul_nonneg hmul hpi)
  · intro rec hrec
    unfold OrenNayar.sample at hrec
    rw [if_neg (by simp [hm])] at hrec
    by_cases hr : values.m_roughness ≠ 0
    · rw [if_pos hr] at hrec
      split_ifs at hrec with h1 h2
      obtain rfl := Option.some.inj hrec
      refine ⟨fun _ i => ?_, fun h0 => absurd h0 hr⟩
      exact oren_nayar_qualitative_nonneg _ _ _ _ _ _ _ _ i
    · rw [if_neg hr] at hrec
      obtain rfl := Option.some.inj hrec
      refine ⟨fun h => absurd h hr, fun _ hmul hrefl i => ?_⟩
      exact mul_nonneg (hrefl i) (mul_nonneg hmul hpi)

/-- C8 witness: non-negativity of the returned value at a concrete input
with non-zero roughness. -/
theorem C8_witness :
    has_diffuse 1 = true ∧
    (0 : ℝ) ≤ dot onUp basisY.get_normal ∧
    vRough.m_roughness ≠ 0 ∧
    0 ≤ ((OrenNayar.evaluate vRough basisY onUp onUp 1
           (OrenNayar.DirectShadingComponents.zero 1)).2).m_diffuse 0 :=
  ⟨by decide,
   by norm_num [onUp, basisY, dot, Basis3.get_normal],
   by norm_num [vRough],
   ((C8_theorem vRough basisY onUp onUp 1
       (OrenNayar.DirectShadingComponents.zero 1) 0 0
       (by decide)
       (by norm_num [onUp, basisY, dot, Basis3.get_normal])).1
     (by norm_num [vRough]) 0)⟩

/-- C9: counterexample.  At the random input pair `(0, 1)` — a point of the
closed square `[0,1]²` — with roughness `0` and diffuse mode requested,
`sample` draws a direction and returns a sample record whose probability
density is `√(1−1)/π = 0`, not strictly positive. -/
theorem C9_counterexample :
    (0 : ℝ) ≤ 0 ∧ (0 : ℝ) ≤ 1 ∧ (0 : ℝ) ≤ 1 ∧ (1 : ℝ) ≤ 1 ∧
    has_diffuse 1 = true ∧
    (OrenNayar.sample vLambert basisY onUp 1 0 1).map
        OrenNayar.BSDFSample.m_probability = some 0 := by
  refine ⟨le_refl 0, by norm_num, by norm_num, le_refl 1, by decide, ?_⟩
  have hy : (OrenNayar.sample_hemisphere_cosine 0 1).vy = 0 := by
    unfold OrenNayar.sample_hemisphere_cosine
    norm_num [Real.sqrt_zero]
  unfold OrenNayar.sample
  rw [if_neg (by decide), if_neg (by norm_num [vLambert])]
  simp [hy]

/-- C9 (amended): for every random input pair in `[0,1] × [0,1)` with
diffuse mode requested, whenever `sample` produces a sample record its
probability density equals `cos θ / π` of the sampled local direction
(the local `y` coordinate over `π`) and is strictly positive. -/
theorem C9_theorem {nn : ℕ} (values : OrenNayar.InputValues nn)
    (basis : Basis3) (outgoing : Vec3) (modes : ℕ) (s1 s2 : ℝ)
    (hm : has_diffuse modes = true)
    (h1a : 0 ≤ s1) (h1b : s1 ≤ 1) (h2a : 0 ≤ s2) (h2b : s2 < 1) :
    ∀ rec, OrenNayar.sample values basis outgoing modes s1 s2 = some rec →
      rec.m_probability
        = (OrenNayar.sample_hemisphere_cosine s1 s2).vy * (Real.pi)⁻¹ ∧
      0 < rec.m_probability := by
  have hy : 0 < (OrenNayar.sample_hemisphere_cosine s1 s2).vy := by
    unfold OrenNayar.sample_hemisphere_cosine
    exact Real.sqrt_pos.mpr (by linarith)
  have hpos : 0 < (OrenNayar.sample_hemisphere_cosine s1 s2).vy *
      (Real.pi)⁻¹ := mul_pos hy (inv_pos.mpr Real.pi_pos)
  intro rec hrec
  unfold OrenNayar.sample at hrec
  rw [if_neg (by simp [hm])] at hrec
  by_cases hr : values.m_roughness ≠ 0
  · rw [if_pos hr] at hrec
    split_ifs at hrec with h1 h2
    obtain rfl := Option.some.inj hrec
    exact ⟨rfl, hpos⟩
  · rw [if_neg hr] at hrec
    obtain rfl := Option.some.inj hrec
    exact ⟨rfl, hpos⟩

/-- C9 witness: the density of the sample drawn at random inputs `(0, 0)`
is `cos θ / π` and strictly positive. -/
theorem C9_witness :
    has_diffuse 1 = true ∧
    (0 : ℝ) ≤ 0 ∧ (0 : ℝ) ≤ 1 ∧ (0 : ℝ) < 1 ∧
    OrenNayar.sample vLambert basisY onUp 1 0 0 = some recC ∧
    (recC.m_probability
       = (OrenNayar.sample_hemisphere_cosine 0 0).vy * (Real.pi)⁻¹ ∧
     0 < recC.m_probability) := by
  have hsome : OrenNayar.sample vLambert basisY onUp 1 0 0 = some recC := by
    unfold OrenNayar.sample recC
    rw [if_neg (by decide), if_neg (by norm_num [vLambert])]
  exact ⟨by decide, le_refl 0, by norm_num, by norm_num, hsome,
    C9_theorem vLambert basisY onUp 1 0 0 (by decide) (le_refl 0)
      (by norm_num) (le_refl 0) (by norm_num) recC hsome⟩

/-- C4: counterexample.  The validated configuration `low_threshold =
high_threshold` is accepted by `extract_parameters`, and with a voxel
diagonal it yields `classic_threshold = fast_threshold`.  There, a
clearance exactly equal to `classic_threshold` selects fast mode, not
blend mode with `k = 0` as the claim requires (the `clearance ≥
fast_threshold` test is evaluated first). -/
theorem C4_counterexample :
    VoxelAO.select_strategy 1 1 1 = VoxelAO.AOStrategy.fast ∧
    VoxelAO.AOStrategy.fast ≠ VoxelAO.AOStrategy.blend 0 ∧
    VoxelAO.extract_parameters ⟨16, 1, 1 / 100, 1, 1, false⟩
      = ⟨16, 1, 1 / 100, 1, 1, false⟩ := by
  refine ⟨by decide, by decide, ?_⟩
  unfold VoxelAO.extract_parameters
  norm_num

/-- C4 (amended): provided `classic_threshold < fast_threshold`, the
occlusion strategy is selected from the measured clearance as the claim
states: clearance at least `fast_threshold` (including exactly equal)
selects fast mode; clearance below `classic_threshold` selects classic
mode; otherwise blend mode with `k = linearstep(classic_threshold,
fast_threshold, clearance)`, so that clearance exactly equal to
`classic_threshold` selects blend mode with `k = 0`. -/
theorem C4_theorem (classic_threshold fast_threshold clearance : ℚ)
    (hlt : classic_threshold < fast_threshold) :
    (fast_threshold ≤ clearance →
       VoxelAO.select_strategy classic_threshold fast_threshold clearance
         = VoxelAO.AOStrategy.fast) ∧
    (clearance < classic_threshold →
       VoxelAO.select_strategy classic_threshold fast_threshold clearance
         = VoxelAO.AOStrategy.classic) ∧
    (classic_threshold ≤ clearance → clearance < fast_threshold →
       VoxelAO.select_strategy classic_threshold fast_threshold clearance
         = VoxelAO.AOStrategy.blend
             (VoxelAO.linearstep classic_threshold fast_threshold
               clearance)) ∧
    (clearance = classic_threshold →
       VoxelAO.select_strategy classic_threshold fast_threshold clearance
         = VoxelAO.AOStrategy.blend 0) ∧
    (clearance = fast_threshold →
       VoxelAO.select_strategy classic_threshold fast_threshold clearance
         = VoxelAO.AOStrategy.fast) := by
  refine ⟨?_, ?_, ?_, ?_, ?_⟩
  · intro h
    unfold VoxelAO.select_strategy
    rw [if_pos h]
  · intro h
    unfold VoxelAO.select_strategy
    rw [if_neg (by linarith), if_pos h]
  · intro h1 h2
    unfold VoxelAO.select_strategy
    rw [if_neg (by linarith), if_neg (by linarith)]
  · intro h
    subst h
    unfold VoxelAO.select_strategy VoxelAO.linearstep
    rw [if_neg (by linarith), if_neg (by linarith)]
    norm_num
  · intro h
    subst h
    unfold VoxelAO.select_strategy
    rw [if_pos (le_refl clearance)]

/-- C4 witness: with thresholds `1 < 3`, a clearance exactly at the
classic threshold selects blend mode with `k = 0`. -/
theorem C4_witness :
    (1 : ℚ) < 3 ∧
    VoxelAO.select_strategy 1 3 1 = VoxelAO.AOStrategy.blend 0 :=
  ⟨by norm_num, (C4_theorem 1 3 1 (by norm_num)).2.2.2.1 rfl⟩

/-- C5: calling `on_frame_begin` when both version counters equal the
last-seen values leaves the whole shader state — voxel tree, intersector
and all derived thresholds — unchanged; when either counter differs, the
tree and intersector are rebuilt from the scene, the new counter values
are cached, and the derived quantities are recomputed, including
`half_samples = max(1, samples / 2)`. -/
theorem C5_theorem (build : VoxelAO.SceneState → ℚ → VoxelAO.AOVoxelTree)
    (scene : VoxelAO.SceneState) (st : VoxelAO.ShaderState) :
    (scene.geometry_version_id = st.m_last_geometry_version_id ∧
     scene.asm_inst_version_id = st.m_last_asm_inst_version_id →
       VoxelAO.on_frame_begin build scene st = st) ∧
    (scene.geometry_version_id ≠ st.m_last_geometry_version_id ∨
     scene.asm_inst_version_id ≠ st.m_last_asm_inst_version_id →
       (VoxelAO.on_frame_begin build scene st).m_voxel_tree
           = some (build scene st.m_max_voxel_extent) ∧
       (VoxelAO.on_frame_begin build scene st).m_voxel_tree_intersector
           = some (build scene st.m_max_voxel_extent) ∧
       (VoxelAO.on_frame_begin build scene st).m_last_geometry_version_id
           = scene.geometry_version_id ∧
       (VoxelAO.on_frame_begin build scene st).m_last_asm_inst_version_id
           = scene.asm_inst_version_id ∧
       (VoxelAO.on_frame_begin build scene st).m_diag_length
           = (build scene st.m_max_voxel_extent).max_diag_length *
               (1 + 1 / 100000) ∧
       (VoxelAO.on_frame_begin build scene st).m_classic_threshold
           = st.m_low_threshold *
               ((build scene st.m_max_voxel_extent).max_diag_length *
                 (1 + 1 / 100000)) ∧
       (VoxelAO.on_frame_begin build scene st).m_fast_threshold
           = st.m_high_threshold *
               ((build scene st.m_max_voxel_extent).max_diag_length *
                 (1 + 1 / 100000)) ∧
       (VoxelAO.on_frame_begin build scene st).m_half_samples
           = max 1 (st.m_samples / 2)) := by
  constructor
  · intro ⟨h1, h2⟩
    unfold VoxelAO.on_frame_begin
    rw [if_neg (by simp [h1, h2])]
  · intro h
    have hif : VoxelAO.on_frame_begin build scene st
        = { st with
            m_last_geometry_version_id := scene.geometry_version_id,
            m_last_asm_inst_version_id := scene.asm_inst_version_id,
            m_voxel_tree := some (build scene st.m_max_voxel_extent),
            m_diag_length :=
              (build scene st.m_max_voxel_extent).max_diag_length *
                (1 + 1 / 100000),
            m_classic_threshold :=
              st.m_low_threshold *
                ((build scene st.m_max_voxel_extent).max_diag_length *
                  (1 + 1 / 100000)),
            m_fast_threshold :=
              st.m_high_threshold *
                ((build scene st.m_max_voxel_extent).max_diag_length *
                  (1 + 1 / 100000)),
            m_half_samples :=
              if st.m_samples / 2 < 1 then 1 else st.m_samples / 2,
            m_voxel_tree_intersector :=
              some (build scene st.m_max_voxel_extent) } := by
      unfold VoxelAO.on_frame_begin
      rw [if_pos h]
    rw [hif]
    refine ⟨rfl, rfl, rfl, rfl, rfl, rfl, rfl, ?_⟩
    show (if st.m_samples / 2 < 1 then 1 else st.m_samples / 2)
        = max 1 (st.m_samples / 2)
    split_ifs with hs <;> omega

/-- C5 witness: a rebuild at a concrete state whose cached geometry
counter differs from the scene's. -/
theorem C5_witness :
    scene0.geometry_version_id ≠ st0.m_last_geometry_version_id ∧
    (VoxelAO.on_frame_begin build0 scene0 st0).m_voxel_tree
        = some (build0 scene0 st0.m_max_voxel_extent) ∧
    (VoxelAO.on_frame_begin build0 scene0 st0).m_last_geometry_version_id
        = scene0.geometry_version_id ∧
    (VoxelAO.on_frame_begin build0 scene0 st0).m_half_samples
        = max 1 (st0.m_samples / 2) := by
  have h := (C5_theorem build0 scene0 st0).2 (Or.inl (by decide))
  exact ⟨by decide, h.1, h.2.2.1, h.2.2.2.2.2.2.2⟩

/-- C6: constructing the voxel AO shader with `low_threshold < 0`, or
`high_threshold < 0`, or `high_threshold < low_threshold` yields a shader
whose thresholds are the documented defaults `2.0` and `4.0`, not the
supplied values; the parameter-extraction function is total, so
construction never fails on this account. -/
theorem C6_theorem (p : VoxelAO.AOParams)
    (h : p.low_threshold < 0 ∨ p.high_threshold < 0 ∨
         p.high_threshold < p.low_threshold) :
    (VoxelAO.extract_parameters p).low_threshold = 2 ∧
    (VoxelAO.extract_parameters p).high_threshold = 4 := by
  unfold VoxelAO.extract_parameters
  rw [if_pos h]
  exact ⟨rfl, rfl⟩

/-- C6 witness: supplying `low_threshold = 5 > high_threshold = 3` yields
the defaults `2` and `4`. -/
theorem C6_witness :
    (pBad.low_threshold < 0 ∨ pBad.high_threshold < 0 ∨
       pBad.high_threshold < pBad.low_threshold) ∧
    (VoxelAO.extract_parameters pBad).low_threshold = 2 ∧
    (VoxelAO.extract_parameters pBad).high_threshold = 4 :=
  ⟨by norm_num [pBad], C6_theorem pBad (by norm_num [pBad])⟩

/-- Interpolating at parameter `0` yields the first endpoint. -/
theorem lerp_zero (a b : PixelVariation.Color3) :
    PixelVariation.lerp a b 0 = a := by
  cases a; cases b
  simp only [PixelVariation.lerp, PixelVariation.Color3.mk.injEq]
  refine ⟨by ring, by ring, by ring⟩

/-- Interpolating at parameter `1` yields the second endpoint. -/
theorem lerp_one (a b : PixelVariation.Color3) :
    PixelVariation.lerp a b 1 = b := by
  cases a; cases b
  simp only [PixelVariation.lerp, PixelVariation.Color3.mk.injEq]
  refine ⟨by ring, by ring, by ring⟩

/-- C7: `post_process_image` first computes the running maximum `m` of the
first channel over the crop window (an upper bound of the region, attained
whenever it is non-zero); if `m = 0` every crop-window pixel is set to the
fixed blue color; otherwise every crop-window pixel is set to the linear
interpolation between blue and red at parameter `value / m`, so a pixel
holding `0` maps exactly to blue, a pixel holding `m` maps exactly to red,
and a pixel holding `m / 2` maps to the exact midpoint interpolation. -/
theorem C7_theorem (img : PixelVariation.Image)
    (cw : PixelVariation.AABB2u) :
    (∀ x y, PixelVariation.in_crop cw x y = true →
       (img x y).cr ≤ PixelVariation.max_variation img cw) ∧
    (PixelVariation.max_variation img cw = 0 ∨
       ∃ x y, PixelVariation.in_crop cw x y = true ∧
         (img x y).cr = PixelVariation.max_variation img cw) ∧
    (PixelVariation.max_variation img cw = 0 →
       ∀ x y, PixelVariation.in_crop cw x y = true →
         PixelVariation.post_process_image img cw x y
           = PixelVariation.Blue) ∧
    (PixelVariation.max_variation img cw ≠ 0 →
       ∀ x y, PixelVariation.in_crop cw x y = true →
         PixelVariation.post_process_image img cw x y
           = PixelVariation.lerp PixelVariation.Blue PixelVariation.Red
               ((img x y).cr / PixelVariation.max_variation img cw) ∧
         ((img x y).cr = 0 →
            PixelVariation.post_process_image img cw x y
              = PixelVariation.Blue) ∧
         ((img x y).cr = PixelVariation.max_variation img cw →
            PixelVariation.post_process_image img cw x y
              = PixelVariation.Red) ∧
         ((img x y).cr = PixelVariation.max_variation img cw / 2 →
            PixelVariation.post_process_image img cw x y
              = PixelVariation.lerp PixelVariation.Blue PixelVariation.Red
                  (1 / 2))) := by
  refine ⟨?_, ?_, ?_, ?_⟩
  · intro x y h
    exact foldl_max_mem_le (fun p => (img p.1 p.2).cr)
      (PixelVariation.crop_pixels cw) 0 (x, y)
      ((mem_crop_pixels_iff cw x y).mpr h)
  · rcases foldl_max_eq_init_or_mem (fun p => (img p.1 p.2).cr)
        (PixelVariation.crop_pixels cw) 0 with h | ⟨p, hp, hfp⟩
    · exact Or.inl h
    · exact Or.inr ⟨p.1, p.2,
        (mem_crop_pixels_iff cw p.1 p.2).mp (by simpa using hp), hfp⟩
  · intro h0 x y hxy
    unfold PixelVariation.post_process_image
    rw [if_neg (by simp [h0])]
    simp [hxy]
  · intro hne x y hxy
    have hpost : PixelVariation.post_process_image img cw x y
        = PixelVariation.lerp PixelVariation.Blue PixelVariation.Red
            ((img x y).cr / PixelVariation.max_variation img cw) := by
      unfold PixelVariation.post_process_image
      rw [if_pos hne]
      simp [hxy, PixelVariation.fit01]
    refine ⟨hpost, ?_, ?_, ?_⟩
    · intro hr
      rw [hpost, hr, zero_div, lerp_zero]
    · intro hr
      rw [hpost, hr, div_self hne, lerp_one]
    · intro hr
      have hhalf : PixelVariation.max_variation img cw / 2 /
          PixelVariation.max_variation img cw = 1 / 2 := by
        field_simp
        ring
      rw [hpost, hr, hhalf]

/-- C7 witness: on a region holding first-channel values `{0, 1/2, 1}`,
the pixel holding `0` maps exactly to blue, the pixel holding the maximum
maps exactly to red, and the pixel holding half the maximum maps to the
exact midpoint interpolation. -/
theorem C7_witness :
    PixelVariation.max_variation img0 cw0 ≠ 0 ∧
    PixelVariation.in_crop cw0 0 0 = true ∧
    PixelVariation.in_crop cw0 1 0 = true ∧
    PixelVariation.in_crop cw0 2 0 = true ∧
    PixelVariation.post_process_image img0 cw0 0 0
      = PixelVariation.Blue ∧
    PixelVariation.post_process_image img0 cw0 1 0
      = PixelVariation.lerp PixelVariation.Blue PixelVariation.Red
          (1 / 2) ∧
    PixelVariation.post_process_image img0 cw0 2 0
      = PixelVariation.Red := by
  have hlist : PixelVariation.crop_pixels cw0 = [(0, 0), (1, 0), (2, 0)] :=
    rfl
  have hmv : PixelVariation.max_variation img0 cw0 = 1 := by
    unfold PixelVariation.max_variation
    rw [hlist]
    simp only [List.foldl_cons, List.foldl_nil, img0]
    norm_num
  have hne : PixelVariation.max_variation img0 cw0 ≠ 0 := by
    rw [hmv]; norm_num
  have hr0 : (img0 0 0).cr = 0 := by norm_num [img0]
  have hr1 : (img0 1 0).cr = PixelVariation.max_variation img0 cw0 / 2 := by
    rw [hmv]; norm_num [img0]
  have hr2 : (img0 2 0).cr = PixelVariation.max_variation img0 cw0 := by
    rw [hmv]; norm_num [img0]
  have h0 := ((C7_theorem img0 cw0).2.2.2 hne 0 0 (by decide)).2.1 hr0
  have h1 := ((C7_theorem img0 cw0).2.2.2 hne 1 0 (by decide)).2.2.2 hr1
  have h2 := ((C7_theorem img0 cw0).2.2.2 hne 2 0 (by decide)).2.2.1 hr2
  exact ⟨hne, by decide, by decide, by decide, h0, h1, h2⟩

/-- C10: the post-processing pass reads and writes only crop-window
pixels: every pixel outside the crop window (bounds inclusive) is left
unchanged, and the result on crop-window pixels depends only on the
crop-window contents of the input image. -/
theorem C10_theorem (img img' : PixelVariation.Image)
    (cw : PixelVariation.AABB2u)
    (h : ∀ x y, PixelVariation.in_crop cw x y = true →
        img x y = img' x y) :
    (∀ x y, PixelVariation.in_crop cw x y = false →
       PixelVariation.post_process_image img cw x y = img x y) ∧
    (∀ x y, PixelVariation.in_crop cw x y = true →
       PixelVariation.post_process_image img cw x y
         = PixelVariation.post_process_image img' cw x y) := by
  have hmax := max_variation_congr img img' cw h
  constructor
  · intro x y hxy
    unfold PixelVariation.post_process_image
    split_ifs with hm
    · simp [hxy]
    · simp [hxy]
  · intro x y hxy
    unfold PixelVariation.post_process_image
    rw [hmax]
    split_ifs with hm
    · simp [hxy, h x y hxy]
    · simp [hxy]

/-- C10 witness: a pixel outside the crop window is unchanged by the
post-processing pass. -/
theorem C10_witness :
    PixelVariation.in_crop cw0 5 5 = false ∧
    PixelVariation.post_process_image img0 cw0 5 5 = img0 5 5 :=
  ⟨by decide,
   (C10_theorem img0 img0 cw0 (fun _ _ _ => rfl)).1 5 5 (by decide)⟩

end Appleseed
